import Mathlib

/-!
Shallow embedding of the `Result`/`Error` library in `result.cpp`
(chen3feng/error-handling).  Every definition mirrors one entity of the
source file; line numbers in the doc comments refer to `src/result.cpp`.
C++ pointers/`shared_ptr` are modelled with `Option`; reading through a
null handle or reading the never-constructed member of the `union` inside
`Result` (both undefined behaviour in C++) is modelled as producing `none`.
-/

namespace EH

/-- Embedding of `ErrorImpl` (lines 30–46): a heap record holding the numeric
code and the capture of the construction site (file, line, function). -/
structure ErrorImpl where
  code : Int
  file : String
  line : Nat
  function : String
deriving Repr, DecidableEq

/-- Embedding of the virtual `ErrorImpl::Cause` (line 40): the base class
always returns `nullptr`, and no derived class in the source overrides it
(the cause-taking `TypedError` constructor is declared but never defined),
so the cause chain of every record in this program is empty. -/
def ErrorImpl.Cause (_ : ErrorImpl) : Option ErrorImpl := none

/-- Embedding of `BaseError` (lines 49–82): a shared-ownership handle to an
`ErrorImpl`; `none` models a null `shared_ptr` (default construction). -/
structure BaseError where
  error : Option ErrorImpl
deriving Repr, DecidableEq

/-- Embedding of the default constructor `BaseError()` (line 51): the handle
is a null `shared_ptr`. -/
def BaseError.mkNull : BaseError := ⟨none⟩

/-- Embedding of `BaseError(int, const char*, int, const char*)` (lines
52–54): allocates a fresh record. -/
def BaseError.mk4 (code : Int) (file : String) (line : Nat) (function : String) : BaseError :=
  ⟨some ⟨code, file, line, function⟩⟩

/-- Embedding of `BaseError::RawCode` (lines 56–59): `0` for a null handle,
else the record's code. -/
def BaseError.RawCode (b : BaseError) : Int :=
  match b.error with
  | none => 0
  | some e => e.code

/-- Embedding of `BaseError::operator bool` (lines 62–64):
`error_ && int(error_->Code()) != 0`. -/
def BaseError.toBool (b : BaseError) : Bool :=
  match b.error with
  | none => false
  | some e => e.code != 0

/-- Embedding of `BaseError::operator!` (lines 65–67): negation of the
`bool` conversion. -/
def BaseError.notb (b : BaseError) : Bool :=
  !(b.toBool)

/-- Embedding of `BaseError::Message` (lines 69–72): the body is the stub
`return "";` (with a `TODO: uses ErrorCodeTraits` comment); neither
`ErrorCodeTraits` nor `ErrorMeta` (lines 11–21, both without definitions)
is ever consulted. -/
def BaseError.Message (_ : BaseError) : String := ""

/-- Embedding of `BaseError::File` (line 74): `return error_->File();`.
Dereferencing the null handle of an empty error is undefined behaviour and
is modelled as `none`; there is no assertion in the source. -/
def BaseError.File (b : BaseError) : Option String :=
  b.error.map ErrorImpl.file

/-- Embedding of `BaseError::Line` (line 75), null handle modelled as in
`BaseError.File`. -/
def BaseError.Line (b : BaseError) : Option Nat :=
  b.error.map ErrorImpl.line

/-- Embedding of `BaseError::Function` (line 76), null handle modelled as in
`BaseError.File`. -/
def BaseError.Function (b : BaseError) : Option String :=
  b.error.map ErrorImpl.function

/-- Embedding of `TypedError<ErrorCode>` (lines 86–104): a `BaseError` whose
stored code is viewed through the enumeration `Code`. -/
structure TypedError (Code : Type) where
  base : BaseError
deriving Repr, DecidableEq

/-- Embedding of the default constructor `TypedError()` (line 89). -/
def TypedError.mkNull (Code : Type) : TypedError Code := ⟨BaseError.mkNull⟩

/-- Embedding of `TypedError(ErrorCode code, file, line, function)` (lines
90–94): the `__builtin_FILE/LINE/FUNCTION` default arguments are bound at
each call site, so the constructing call passes its own location explicitly
here; `toInt` is the `(int)code` cast. -/
def TypedError.mkAt {Code : Type} (toInt : Code → Int) (code : Code)
    (file : String) (line : Nat) (function : String) : TypedError Code :=
  ⟨BaseError.mk4 (toInt code) file line function⟩

/-- Embedding of `TypedError::Code` (lines 101–103):
`static_cast<ErrorCode>(RawCode())`, with `ofInt` the cast. -/
def TypedError.Code {C : Type} (ofInt : Int → C) (e : TypedError C) : C :=
  ofInt e.base.RawCode

/-- Inherited `operator bool` of `TypedError` (from `BaseError`, line 62). -/
def TypedError.toBool {C : Type} (e : TypedError C) : Bool := e.base.toBool

/-- Inherited `operator!` of `TypedError` (from `BaseError`, line 65). -/
def TypedError.notb {C : Type} (e : TypedError C) : Bool := e.base.notb

/-- Embedding of `GenericError` (lines 107–127): a `BaseError` whose code is
read back as a raw `int`. -/
structure GenericError where
  base : BaseError
deriving Repr, DecidableEq

/-- Embedding of the default constructor `GenericError()` (line 109). -/
def GenericError.mkNull : GenericError := ⟨BaseError.mkNull⟩

/-- Embedding of `GenericError(int code, file, line, function)` (lines
111–115), call-site location passed explicitly as in `TypedError.mkAt`. -/
def GenericError.mk1 (code : Int) (file : String) (line : Nat) (function : String) :
    GenericError :=
  ⟨BaseError.mk4 code file line function⟩

/-- Embedding of the erasing constructor `template <typename ErrorType>
GenericError(ErrorType error) : BaseError(error)` (lines 120–122): the
`BaseError` subobject is copied, so the erased value shares the very same
record (code, site and cause chain). -/
def GenericError.ofTyped {C : Type} (e : TypedError C) : GenericError := ⟨e.base⟩

/-- Embedding of `GenericError::Code` (lines 124–126): `RawCode()`. -/
def GenericError.Code (g : GenericError) : Int := g.base.RawCode

/-- Inherited `operator bool` of `GenericError` (from `BaseError`, line 62). -/
def GenericError.toBool (g : GenericError) : Bool := g.base.toBool

/-- Inherited `operator!` of `GenericError` (from `BaseError`, line 65). -/
def GenericError.notb (g : GenericError) : Bool := g.base.notb

/-- Inherited `Message` of `GenericError` (from `BaseError`, lines 69–72). -/
def GenericError.Message (g : GenericError) : String := g.base.Message

/-- Interface of the `ErrorType` template parameter of `Result` (lines
134, 188): every error type used with `Result` in the source derives from
`BaseError`, is default-constructible, and its `operator!` (used by
`Result::OK`) is the inherited one of its `BaseError` subobject. -/
class ErrorType (E : Type) where
  mkDefault : E
  base : E → BaseError

instance : ErrorType GenericError := ⟨GenericError.mkNull, GenericError.base⟩

instance (C : Type) : ErrorType (TypedError C) := ⟨TypedError.mkNull C, TypedError.base⟩

/-- Embedding of `Result<T, ErrorType>` (lines 134–185).  The C++ object
always contains the `error_` member; the `union { T value_; }` member is
constructed only on the success path, which is modelled by `value? : Option
T` with `none` standing for "never constructed" (reading it is undefined
behaviour in C++). -/
structure Result (T E : Type) where
  value? : Option T
  error : E
deriving Repr, DecidableEq

/-- Embedding of `Result(T value)` (line 137): the value is stored and
`error_` is default-constructed (an empty, falsy error). -/
def Result.ofValue {T E : Type} [ErrorType E] (v : T) : Result T E :=
  ⟨some v, ErrorType.mkDefault⟩

/-- Embedding of `Result(ErrorType error)` (line 138): the error is stored
and the union member `value_` is left unconstructed. -/
def Result.ofError {T E : Type} (e : E) : Result T E :=
  ⟨none, e⟩

/-- Embedding of `Result::OK` (lines 173–175): `return !error_;`, computed
solely from the truthiness of the stored error. -/
def Result.OK {T E : Type} [ErrorType E] (r : Result T E) : Bool :=
  (ErrorType.base r.error).notb

/-- Embedding of `Result::Error` (lines 176–178): returns the stored error
unconditionally. -/
def Result.Error {T E : Type} (r : Result T E) : E := r.error

/-- Embedding of `Result::Value` (lines 159–164): `return value_;` with no
check whatsoever; on a `Result` built from an error the union member was
never constructed and the read is undefined behaviour, modelled as
`none`. -/
def Result.Value {T E : Type} (r : Result T E) : Option T := r.value?

/-- Embedding of `Result::ValueOr` (lines 167–170):
`if (OK()) return Value(); return default_value;`. -/
def Result.ValueOr {T E : Type} [ErrorType E] (r : Result T E) (d : T) : Option T :=
  if r.OK then r.Value else some d

/-- Embedding of the partial specialization `Result<void, ErrorType>` (lines
188–206): only the error is stored. -/
structure ResultVoid (E : Type) where
  error : E
deriving Repr, DecidableEq

/-- Embedding of `Result<void>()` (line 191): default-constructed (falsy)
error, i.e. success. -/
def ResultVoid.mk0 {E : Type} [ErrorType E] : ResultVoid E :=
  ⟨ErrorType.mkDefault⟩

/-- Embedding of `Result<void>(ErrorType error)` (line 192). -/
def ResultVoid.ofError {E : Type} (e : E) : ResultVoid E := ⟨e⟩

/-- Embedding of `Result<void>::IgnoreError` (line 199): `void IgnoreError()
const {}` — an empty `const` member; it reads nothing and returns
nothing. -/
def ResultVoid.IgnoreError {E : Type} (_ : ResultVoid E) : Unit := ()

/-- Embedding of `Result<void>::OK` (lines 201–203): `return !error_;`. -/
def ResultVoid.OK {E : Type} [ErrorType E] (r : ResultVoid E) : Bool :=
  (ErrorType.base r.error).notb

/-- Embedding of the helper `Result<void> OK()` (lines 209–211). -/
def OK : ResultVoid GenericError := ResultVoid.mk0

/-- Public member functions declared by the `Result<void, ErrorType>`
partial specialization (lines 188–206), constructors aside, read directly
off the class body: `IgnoreError` (line 199) and `OK` (line 201).  The
specialization declares neither `Value`, nor `ValueOr`, nor `Error`. -/
def resultVoidMembers : List String := ["IgnoreError", "OK"]

/-- Member functions called by the expansion of the `TRY` macro (lines
226–230) on its operand `result`: `OK()` (line 228), `Error()` (line 228)
and `Value()` (line 229). -/
def tryMacroMembers : List String := ["OK", "Error", "Value"]

/-- Embedding of the `TRY` macro (lines 226–230):
`({ auto&& result = stmt; if (!result.OK()) return result.Error();
std::move(result).Value(); })`.  `conv` is the implicit conversion applied
by the enclosing function's `Result` return type to the returned error (the
erasing `GenericError` constructor when the error types differ, identity
when they coincide); `k` is the rest of the enclosing function, consuming
the unwrapped value.  The overall `Option` models a C++ execution that
escapes normal control flow (an exception or undefined behaviour). -/
def TRY {T U E E2 : Type} [ErrorType E] (result : Result T E) (conv : E → E2)
    (k : T → Option (Result U E2)) : Option (Result U E2) :=
  if result.OK then
    match result.value? with
    | some v => k v
    | none => none
  else some (Result.ofError (conv result.Error))

/-- Embedding of the `TRY` macro (lines 226–230) instrumented with an
explicit evaluation state `σ`, so that the number of evaluations of the
operand expression `stmt` is observable: `auto&& result = stmt;` performs
exactly one evaluation of `stmt`, then the branch inspects the resulting
value only. -/
def TRYeval {σ T U E E2 : Type} [ErrorType E] (stmt : σ → Result T E × σ) (conv : E → E2)
    (k : T → σ → Option (Result U E2) × σ) (s : σ) : Option (Result U E2) × σ :=
  let p := stmt s
  let result := p.1
  let s1 := p.2
  if result.OK then
    match result.value? with
    | some v => k v s1
    | none => (none, s1)
  else (some (Result.ofError (conv result.Error)), s1)

/-! Demo/test part of the source (lines 235–323): the errno-typed error,
the fake file table and the lookup-then-parse pipeline. -/

/-- Embedding of `enum class ErrnoType {}` (lines 240–241): an enumeration
with no enumerators whose values are those of its underlying type `int`;
the casts `int → ErrnoType → int` are the identity. -/
abbrev ErrnoType : Type := Int

/-- Embedding of `using ErrnoError = TypedError<ErrnoType>` (line 243). -/
abbrev ErrnoError : Type := TypedError ErrnoType

/-- Construction of an `ErrnoError` at an explicit call site (the
`__builtin_FILE/LINE/FUNCTION` defaults of lines 90–92 bound there); the
enum cast is the identity. -/
def ErrnoError.mkAt (code : Int) (file : String) (line : Nat) (function : String) :
    ErrnoError :=
  TypedError.mkAt id code file line function

/-- Value of the libc macro `EEXIST` ("File exists") on Linux. -/
def EEXIST : Int := 17

/-- Value of the libc macro `EINVAL` ("Invalid argument") on Linux. -/
def EINVAL : Int := 22

/-- Value of the libc macro `ERANGE` ("Numerical result out of range") on
Linux. -/
def ERANGE : Int := 34

/-- Value of the libc macro `ENOENT` ("No such file or directory") on
Linux; the errno that identifies "not found".  It does not occur in the
source. -/
def ENOENT : Int := 2

/-- Value of `INT_MAX` for the 32-bit `int` of the demo's target. -/
def INT_MAX : Int := 2147483647

/-- Value of `INT_MIN` for the 32-bit `int` of the demo's target. -/
def INT_MIN : Int := -2147483648

/-- Value of `LONG_MAX` for the 64-bit `long` of the demo's target. -/
def LONG_MAX : Int := 9223372036854775807

/-- Value of `LONG_MIN` for the 64-bit `long` of the demo's target. -/
def LONG_MIN : Int := -9223372036854775808

/-- Embedding of the map `file_content` (lines 245–249). -/
def file_content : List (String × String) :=
  [("number", "100"), ("bad", "bad"), ("empty", "")]

/-- Association lookup in `file_content`, as performed by `count`/`at` on
the `std::map` (lines 256, 264). -/
def lookupContent (name : String) : Option String :=
  List.lookup name file_content

/-- Embedding of the fake-file stub class `File` (lines 252–260). -/
structure File where
  name : String
deriving Repr, DecidableEq

/-- Embedding of `File::Read` (lines 255–257): `return
file_content.at(name_);` — the content string converts to the `Result`
through the value constructor; for a name absent from the map `at` throws
`std::out_of_range`, which escapes the `Result` discipline and is modelled
as `none`. -/
def File.Read (f : File) : Option (Result String ErrnoError) :=
  (lookupContent f.name).map Result.ofValue

/-- Embedding of `OpenFile` (lines 263–267): success when the key is in the
map, else `ErrnoError(ErrnoType(EEXIST))` constructed at line 266 inside
function `OpenFile`. -/
def OpenFile (name : String) : Result File ErrnoError :=
  if (lookupContent name).isSome then Result.ofValue ⟨name⟩
  else Result.ofError (ErrnoError.mkAt EEXIST "result.cpp" 266 "OpenFile")

/-- Character classification of `isspace` in the "C" locale, as used by
`strtol` to skip leading white space. -/
def isSpaceChar (c : Char) : Bool :=
  c = ' ' || c = '\t' || c = '\n' || c = '\r' || c = Char.ofNat 11 || c = Char.ofNat 12

/-- Digit value of a character in bases up to 16, as recognised by
`strtol`. -/
def digitVal (c : Char) : Option Nat :=
  if '0' ≤ c ∧ c ≤ '9' then some (c.toNat - '0'.toNat)
  else if 'a' ≤ c ∧ c ≤ 'f' then some (c.toNat - 'a'.toNat + 10)
  else if 'A' ≤ c ∧ c ≤ 'F' then some (c.toNat - 'A'.toNat + 10)
  else none

/-- Longest digit run: accumulates the magnitude of the digits of `base`
found at the front of the list and counts how many characters were
consumed. -/
def parseDigits (base : Nat) : List Char → Nat → Nat → Nat × Nat
  | [], acc, cnt => (acc, cnt)
  | c :: rest, acc, cnt =>
    match digitVal c with
    | some d => if d < base then parseDigits base rest (acc * base + d) (cnt + 1) else (acc, cnt)
    | none => (acc, cnt)

/-- Optional sign at the front of the subject sequence of `strtol`: the
sign, the number of characters consumed, and the remainder. -/
def signSplit : List Char → Int × Nat × List Char
  | '-' :: r => (-1, 1, r)
  | '+' :: r => (1, 1, r)
  | r => (1, 0, r)

/-- Whether the list starts with a hexadecimal digit (used to decide if a
`0x` prefix is followed by a real hex number). -/
def hexStart : List Char → Bool
  | c :: _ => (digitVal c).isSome
  | [] => false

/-- Outcome of `strtol(s, &end, 0)`: the converted `long`, the offset of
`end` from the start of the string, and the resulting `errno` (`0` or
`ERANGE`). -/
structure StrtolOut where
  value : Int
  endPos : Nat
  errno : Int
deriving Repr, DecidableEq

/-- Model of the libc call `strtol(s.c_str(), &end, 0)` made by `ParseInt`
(line 272): skip white space, read an optional sign, detect the base from a
`0x`/`0` prefix, consume the longest digit run, clamp to the `long` range
setting `ERANGE`; when no conversion is performed `end` stays at the start
of the string and the value is `0`. -/
def strtol0 (s : String) : StrtolOut :=
  let cs := s.data
  let nws := (cs.takeWhile isSpaceChar).length
  let rest1 := cs.drop nws
  let sp := signSplit rest1
  let sign := sp.1
  let nsign := sp.2.1
  let rest2 := sp.2.2
  let bp : Nat × Nat × List Char :=
    match rest2 with
    | '0' :: c :: r =>
      if (c = 'x' || c = 'X') && hexStart r then (16, 2, r) else (8, 0, rest2)
    | _ => (10, 0, rest2)
  let base := bp.1
  let npre := bp.2.1
  let rest3 := bp.2.2
  let dg := parseDigits base rest3 0 0
  let mag := dg.1
  let ndig := dg.2
  if npre = 0 ∧ ndig = 0 then
    { value := 0, endPos := 0, errno := 0 }
  else
    let v : Int := sign * Int.ofNat mag
    let pos := nws + nsign + npre + ndig
    if v > LONG_MAX then { value := LONG_MAX, endPos := pos, errno := ERANGE }
    else if v < LONG_MIN then { value := LONG_MIN, endPos := pos, errno := ERANGE }
    else { value := v, endPos := pos, errno := 0 }

/-- Embedding of `ParseInt` (lines 269–283): run `strtol` with base 0; if
`errno` stayed `0` and the whole string was consumed and the value fits in
`int`, succeed with the value; otherwise return
`ErrnoError(ErrnoType(errno))`, constructed at line 282 inside function
`ParseInt`, where `errno` is `EINVAL` for a trailing non-NUL character,
`ERANGE` for an out-of-`int`-range value, or the value `strtol` set. -/
def ParseInt (s : String) : Result Int ErrnoError :=
  let r := strtol0 s
  if r.errno = 0 then
    let endChar := (s.data.drop r.endPos).headD (Char.ofNat 0)
    if endChar ≠ Char.ofNat 0 then
      Result.ofError (ErrnoError.mkAt EINVAL "result.cpp" 282 "ParseInt")
    else if r.value > INT_MAX ∨ r.value < INT_MIN then
      Result.ofError (ErrnoError.mkAt ERANGE "result.cpp" 282 "ParseInt")
    else
      Result.ofValue r.value
  else
    Result.ofError (ErrnoError.mkAt r.errno "result.cpp" 282 "ParseInt")

/-- Embedding of `GetIntFromFile` (lines 286–295): the three `TRY` steps of
the lookup-then-parse pipeline; the enclosing return type `Result<int>`
converts each propagated `ErrnoError` through the erasing `GenericError`
constructor. -/
def GetIntFromFile (filename : String) : Option (Result Int GenericError) :=
  TRY (OpenFile filename) GenericError.ofTyped fun f =>
  (File.Read f).bind fun rr =>
  TRY rr GenericError.ofTyped fun s =>
  TRY (ParseInt s) GenericError.ofTyped fun n =>
  some (Result.ofValue n)

/-- Failing operand used by the witness of the `TRY` semantics theorem: a
sub-call that always produces a truthy `ErrnoError`. -/
def demoStmt : Nat → Result Int ErrnoError := fun _ =>
  Result.ofError (ErrnoError.mkAt 5 "result.cpp" 100 "demo")

/-- Continuation used by the witness of the `TRY` semantics theorem. -/
def demoCont : Int → Option (Result Int GenericError) := fun v =>
  some (Result.ofValue v)

/-- Helper: the `bool` conversion of a `BaseError` is `true` exactly when
the handle is non-null and the record's code is non-zero. -/
theorem BaseError_toBool_iff (b : BaseError) :
    b.toBool = true ↔ ∃ impl, b.error = some impl ∧ impl.code ≠ 0 := by
  obtain ⟨err⟩ := b
  cases err with
  | none => simp [BaseError.toBool]
  | some impl => simp [BaseError.toBool]

/-- C3: for every error wrapper (`TypedError<Code>` or `GenericError`),
`bool(e)` is `true` exactly when the wrapped record exists and its code is
non-zero, `!e` is the negation of `bool(e)` (so a truthy `e` has `bool(e) =
true` and `!e = false`), and a default-constructed wrapper has `bool(e) =
false` and `!e = true`. -/
theorem error_truthiness :
    (∀ (e : GenericError),
      (e.toBool = true ↔ ∃ impl, e.base.error = some impl ∧ impl.code ≠ 0)
      ∧ e.notb = !(e.toBool))
    ∧ (∀ (C : Type) (e : TypedError C),
      (TypedError.toBool e = true ↔ ∃ impl, e.base.error = some impl ∧ impl.code ≠ 0)
      ∧ TypedError.notb e = !(TypedError.toBool e))
    ∧ GenericError.toBool GenericError.mkNull = false
    ∧ GenericError.notb GenericError.mkNull = true
    ∧ TypedError.toBool (TypedError.mkNull ErrnoType) = false
    ∧ TypedError.notb (TypedError.mkNull ErrnoType) = true := by
  refine ⟨fun e => ⟨BaseError_toBool_iff e.base, rfl⟩,
    fun C e => ⟨BaseError_toBool_iff e.base, rfl⟩, rfl, rfl, rfl, rfl⟩

/-- Witness for `error_truthiness` at a concrete truthy error. -/
theorem error_truthiness_witness :
    (GenericError.toBool (GenericError.mk1 3 "result.cpp" 12 "w3") = true
      ↔ ∃ impl, (GenericError.mk1 3 "result.cpp" 12 "w3").base.error = some impl
          ∧ impl.code ≠ 0)
    ∧ GenericError.notb (GenericError.mk1 3 "result.cpp" 12 "w3")
        = !(GenericError.toBool (GenericError.mk1 3 "result.cpp" 12 "w3")) :=
  error_truthiness.1 (GenericError.mk1 3 "result.cpp" 12 "w3")

/-- C2: a `Result` constructed from a truthy error is not OK, and its
`Error()` is exactly the error it was constructed from — in particular the
code, the source location (file, line, function) and the underlying record
(hence the cause chain) round-trip unchanged. -/
theorem Result_error_roundtrip {T E : Type} [ErrorType E] (e : E)
    (h : (ErrorType.base e).toBool = true) :
    (Result.ofError e : Result T E).OK = false
    ∧ (Result.ofError e : Result T E).Error = e
    ∧ (ErrorType.base (Result.ofError e : Result T E).Error).RawCode
        = (ErrorType.base e).RawCode
    ∧ BaseError.File (ErrorType.base (Result.ofError e : Result T E).Error)
        = BaseError.File (ErrorType.base e)
    ∧ BaseError.Line (ErrorType.base (Result.ofError e : Result T E).Error)
        = BaseError.Line (ErrorType.base e)
    ∧ BaseError.Function (ErrorType.base (Result.ofError e : Result T E).Error)
        = BaseError.Function (ErrorType.base e)
    ∧ (ErrorType.base (Result.ofError e : Result T E).Error).error
        = (ErrorType.base e).error := by
  refine ⟨?_, rfl, rfl, rfl, rfl, rfl, rfl⟩
  simp [Result.OK, Result.ofError, BaseError.notb, h]

/-- Witness for `Result_error_roundtrip` at a concrete truthy
`GenericError`. -/
theorem Result_error_roundtrip_witness :
    (ErrorType.base (GenericError.mk1 5 "result.cpp" 20 "w2")).toBool = true
    ∧ ((Result.ofError (GenericError.mk1 5 "result.cpp" 20 "w2") :
          Result Int GenericError).OK = false
      ∧ (Result.ofError (GenericError.mk1 5 "result.cpp" 20 "w2") :
          Result Int GenericError).Error = GenericError.mk1 5 "result.cpp" 20 "w2"
      ∧ (ErrorType.base (Result.ofError (GenericError.mk1 5 "result.cpp" 20 "w2") :
          Result Int GenericError).Error).RawCode
          = (ErrorType.base (GenericError.mk1 5 "result.cpp" 20 "w2")).RawCode
      ∧ BaseError.File (ErrorType.base (Result.ofError
            (GenericError.mk1 5 "result.cpp" 20 "w2") : Result Int GenericError).Error)
          = BaseError.File (ErrorType.base (GenericError.mk1 5 "result.cpp" 20 "w2"))
      ∧ BaseError.Line (ErrorType.base (Result.ofError
            (GenericError.mk1 5 "result.cpp" 20 "w2") : Result Int GenericError).Error)
          = BaseError.Line (ErrorType.base (GenericError.mk1 5 "result.cpp" 20 "w2"))
      ∧ BaseError.Function (ErrorType.base (Result.ofError
            (GenericError.mk1 5 "result.cpp" 20 "w2") : Result Int GenericError).Error)
          = BaseError.Function (ErrorType.base (GenericError.mk1 5 "result.cpp" 20 "w2"))
      ∧ (ErrorType.base (Result.ofError (GenericError.mk1 5 "result.cpp" 20 "w2") :
          Result Int GenericError).Error).error
          = (ErrorType.base (GenericError.mk1 5 "result.cpp" 20 "w2")).error) :=
  ⟨by decide, Result_error_roundtrip (GenericError.mk1 5 "result.cpp" 20 "w2") (by decide)⟩

/-- C5: erasing a `TypedError<C>` to `GenericError` copies the `BaseError`
subobject, so it loses only the static type: the raw code agrees with the
cast of the typed code (provided the `int → C → int` cast round-trips on
the stored code, as it does for a C++ enumeration with underlying type
`int`), and the source location and the underlying record (hence the cause
chain) are preserved. -/
theorem erasure_preserves {C : Type} (toInt : C → Int) (ofInt : Int → C)
    (e : TypedError C)
    (h : toInt (ofInt e.base.RawCode) = e.base.RawCode) :
    GenericError.Code (GenericError.ofTyped e) = toInt (TypedError.Code ofInt e)
    ∧ (GenericError.ofTyped e).base = e.base
    ∧ BaseError.File (GenericError.ofTyped e).base = BaseError.File e.base
    ∧ BaseError.Line (GenericError.ofTyped e).base = BaseError.Line e.base
    ∧ BaseError.Function (GenericError.ofTyped e).base = BaseError.Function e.base
    ∧ (GenericError.ofTyped e).base.error = e.base.error := by
  refine ⟨?_, rfl, rfl, rfl, rfl, rfl⟩
  simp [GenericError.Code, GenericError.ofTyped, TypedError.Code, h]

/-- Witness for `erasure_preserves` at a concrete `ErrnoError` (the enum
casts are the identity). -/
theorem erasure_preserves_witness :
    (id (id (ErrnoError.mkAt 7 "result.cpp" 50 "w5").base.RawCode)
        = (ErrnoError.mkAt 7 "result.cpp" 50 "w5").base.RawCode)
    ∧ (GenericError.Code (GenericError.ofTyped (ErrnoError.mkAt 7 "result.cpp" 50 "w5"))
        = id (TypedError.Code id (ErrnoError.mkAt 7 "result.cpp" 50 "w5"))
      ∧ (GenericError.ofTyped (ErrnoError.mkAt 7 "result.cpp" 50 "w5")).base
        = (ErrnoError.mkAt 7 "result.cpp" 50 "w5").base
      ∧ BaseError.File (GenericError.ofTyped (ErrnoError.mkAt 7 "result.cpp" 50 "w5")).base
        = BaseError.File (ErrnoError.mkAt 7 "result.cpp" 50 "w5").base
      ∧ BaseError.Line (GenericError.ofTyped (ErrnoError.mkAt 7 "result.cpp" 50 "w5")).base
        = BaseError.Line (ErrnoError.mkAt 7 "result.cpp" 50 "w5").base
      ∧ BaseError.Function
            (GenericError.ofTyped (ErrnoError.mkAt 7 "result.cpp" 50 "w5")).base
        = BaseError.Function (ErrnoError.mkAt 7 "result.cpp" 50 "w5").base
      ∧ (GenericError.ofTyped (ErrnoError.mkAt 7 "result.cpp" 50 "w5")).base.error
        = (ErrnoError.mkAt 7 "result.cpp" 50 "w5").base.error) :=
  ⟨rfl, erasure_preserves id id (ErrnoError.mkAt 7 "result.cpp" 50 "w5") rfl⟩

/-- C6: `ValueOr(default)` returns the held value when `OK()` is `true` and
exactly `default` otherwise, and (given that a `Result` that is OK actually
holds a constructed value, as every `Result` built by the constructors from
a value or from a truthy error does) it always produces a defined value —
it never panics. -/
theorem ValueOr_spec {T E : Type} [ErrorType E] (r : Result T E) (d : T)
    (h : r.OK = true → (r.value?).isSome = true) :
    (r.OK = true → r.ValueOr d = r.Value)
    ∧ (r.OK = false → r.ValueOr d = some d)
    ∧ (r.ValueOr d).isSome = true := by
  cases hOK : r.OK with
  | false =>
    refine ⟨fun hc => ?_, fun _ => ?_, ?_⟩
    · simp [hOK] at hc
    · simp [Result.ValueOr, hOK]
    · simp [Result.ValueOr, hOK]
  | true =>
    refine ⟨fun _ => ?_, fun hc => ?_, ?_⟩
    · simp [Result.ValueOr, hOK]
    · simp [hOK] at hc
    · simpa [Result.ValueOr, hOK, Result.Value] using h hOK

/-- Witness for `ValueOr_spec` at a concrete OK result. -/
theorem ValueOr_spec_witness :
    ((Result.ofValue 5 : Result Int GenericError).OK = true
      → ((Result.ofValue 5 : Result Int GenericError).value?).isSome = true)
    ∧ (((Result.ofValue 5 : Result Int GenericError).OK = true
        → (Result.ofValue 5 : Result Int GenericError).ValueOr 7
            = (Result.ofValue 5 : Result Int GenericError).Value)
      ∧ ((Result.ofValue 5 : Result Int GenericError).OK = false
        → (Result.ofValue 5 : Result Int GenericError).ValueOr 7 = some 7)
      ∧ ((Result.ofValue 5 : Result Int GenericError).ValueOr 7).isSome = true) :=
  ⟨by decide, ValueOr_spec (Result.ofValue 5 : Result Int GenericError) 7 (by decide)⟩

/-- C10: constructing a `Result` from a falsy (default-constructed/empty)
error yields `OK() = true` even though no success value was ever stored in
the union — `OK()` is computed solely from the truthiness of the stored
error — and `Error()` on such a result returns that falsy error. -/
theorem falsy_error_result {T E : Type} [ErrorType E] (e : E)
    (h : (ErrorType.base e).toBool = false) :
    (Result.ofError e : Result T E).OK = true
    ∧ (Result.ofError e : Result T E).value? = none
    ∧ (Result.ofError e : Result T E).Error = e := by
  refine ⟨?_, rfl, rfl⟩
  simp [Result.OK, Result.ofError, BaseError.notb, h]

/-- Witness for `falsy_error_result` at the default-constructed
`GenericError`. -/
theorem falsy_error_result_witness :
    (ErrorType.base GenericError.mkNull).toBool = false
    ∧ ((Result.ofError GenericError.mkNull : Result Int GenericError).OK = true
      ∧ (Result.ofError GenericError.mkNull : Result Int GenericError).value? = none
      ∧ (Result.ofError GenericError.mkNull : Result Int GenericError).Error
          = GenericError.mkNull) :=
  ⟨by decide, falsy_error_result GenericError.mkNull (by decide)⟩

/-- C7 (corrected): calling `Value()` on a non-OK `Result` and reading the
source location of an empty error wrapper are precondition violations that
the code does not detect: no branch of `Result::Value` (lines 159–164) or
of `BaseError::File/Line/Function` (lines 74–76) asserts or aborts — the
former silently reads the never-constructed union member and the latter
dereference a null handle, both modelled as yielding `none`. -/
theorem Value_unchecked {T : Type} (e : GenericError) (h : e.toBool = true) :
    (Result.ofError e : Result T GenericError).OK = false
    ∧ (Result.ofError e : Result T GenericError).Value = none
    ∧ BaseError.File BaseError.mkNull = none
    ∧ BaseError.Line BaseError.mkNull = none
    ∧ BaseError.Function BaseError.mkNull = none := by
  refine ⟨?_, rfl, rfl, rfl, rfl⟩
  simp [Result.OK, Result.ofError, BaseError.notb]
  exact h

/-- Witness for `Value_unchecked` at a concrete truthy error. -/
theorem Value_unchecked_witness :
    (GenericError.mk1 9 "result.cpp" 160 "w7").toBool = true
    ∧ ((Result.ofError (GenericError.mk1 9 "result.cpp" 160 "w7") :
          Result Int GenericError).OK = false
      ∧ (Result.ofError (GenericError.mk1 9 "result.cpp" 160 "w7") :
          Result Int GenericError).Value = none
      ∧ BaseError.File BaseError.mkNull = none
      ∧ BaseError.Line BaseError.mkNull = none
      ∧ BaseError.Function BaseError.mkNull = none) :=
  ⟨by decide, Value_unchecked (GenericError.mk1 9 "result.cpp" 160 "w7") (by decide)⟩

/-- C7 counterexample: at the concrete precondition-violating inputs the
code does not panic, abort or assert (in any build mode — the source
contains no assertion): `Result::Value` on a non-OK result is an ordinary
unchecked read of the never-constructed union member, and `BaseError::File`
on an empty wrapper is an ordinary unchecked dereference of the null
handle, refuting the claim that the violation "must panic/abort/assert
rather than being silently tolerated". -/
theorem Value_unchecked_cex :
    (Result.ofError (GenericError.mk1 9 "result.cpp" 161 "cex7") :
        Result Int GenericError).OK = false
    ∧ (Result.ofError (GenericError.mk1 9 "result.cpp" 161 "cex7") :
        Result Int GenericError).Value = none
    ∧ BaseError.File BaseError.mkNull = none := by
  exact ⟨by decide, rfl, rfl⟩

/-- C8 (amended): the `Result<void, ErrorType>` specialization drops
`Value()`/`ValueOr` and also `Error()`; constructors aside it declares
exactly `IgnoreError` and `OK`, and `IgnoreError` is a pure no-op: it
returns `()` for every result, independently of the stored error (so it
never inspects `OK()` nor alters control flow) and, being `const` and
effect-free, leaves the result unchanged. -/
theorem IgnoreError_noop :
    resultVoidMembers = ["IgnoreError", "OK"]
    ∧ (∀ (E : Type) (r : ResultVoid E), ResultVoid.IgnoreError r = ())
    ∧ (∀ (E : Type) (r r2 : ResultVoid E),
        ResultVoid.IgnoreError r = ResultVoid.IgnoreError r2) :=
  ⟨rfl, fun _ _ => rfl, fun _ _ _ => rfl⟩

/-- Witness for `IgnoreError_noop` at a concrete `Result<void>`. -/
theorem IgnoreError_noop_witness :
    ResultVoid.IgnoreError (ResultVoid.mk0 : ResultVoid GenericError) = () :=
  IgnoreError_noop.2.1 GenericError (ResultVoid.mk0 : ResultVoid GenericError)

/-- C8 counterexample: the `Result<void, ErrorType>` specialization does
not expose `Error()` — `"Error"` is not among its declared member
functions — refuting the claimed member set `OK()`, `Error()`,
`IgnoreError()`. -/
theorem resultVoid_lacks_error_accessor : ¬ ("Error" ∈ resultVoidMembers) := by
  decide

/-- C1 (amended): `TRYeval` is the `TRY` macro with the evaluation of its
operand made observable through a state `σ`; with the operand modelled as a
counting action, one `TRY` advances the counter by exactly one (the operand
is evaluated exactly once); when the operand's result is not OK the
enclosing function returns immediately with that error converted to its own
declared error type by `conv` (the erasing `GenericError` constructor
here); when it is OK the construct yields the contained value to the rest
of the function. -/
theorem TRY_semantics {T U C : Type} (f : Nat → Result T (TypedError C))
    (g : T → Option (Result U GenericError)) (n : Nat) :
    (TRYeval (fun m => (f m, m + 1)) GenericError.ofTyped (fun v m => (g v, m)) n).2
        = n + 1
    ∧ ((f n).OK = false →
      (TRYeval (fun m => (f m, m + 1)) GenericError.ofTyped (fun v m => (g v, m)) n).1
        = some (Result.ofError (GenericError.ofTyped (f n).Error)))
    ∧ ((f n).OK = true →
      (TRYeval (fun m => (f m, m + 1)) GenericError.ofTyped (fun v m => (g v, m)) n).1
        = Option.bind (f n).value? g) := by
  unfold TRYeval
  cases hOK : (f n).OK <;> cases hv : (f n).value? <;> simp [hOK, hv]

/-- Witness for `TRY_semantics` on a concrete failing sub-call: the
enclosing function returns immediately with the erased error and the
operand was evaluated exactly once. -/
theorem TRY_semantics_witness :
    (TRYeval (fun m => (demoStmt m, m + 1)) GenericError.ofTyped
        (fun v m => (demoCont v, m)) 0).1
      = some (Result.ofError (GenericError.ofTyped (demoStmt 0).Error))
    ∧ (TRYeval (fun m => (demoStmt m, m + 1)) GenericError.ofTyped
        (fun v m => (demoCont v, m)) 0).2 = 0 + 1 :=
  ⟨(TRY_semantics demoStmt demoCont 0).2.1 (by decide),
    (TRY_semantics demoStmt demoCont 0).1⟩

/-- C1 counterexample: the claim extends the construct to
`Result<void, _>`, but the `TRY` macro cannot be applied to a
`Result<void, _>` operand at all: its expansion calls `Value()` (line 229,
and `Error()` on line 228) on the operand, and the `Result<void,
ErrorType>` specialization declares no such member (lines 188–206; the
source comment at lines 222–225 notes the void case as unhandled), so the
expansion does not compile. -/
theorem TRY_void_incompatible :
    ("Value" ∈ tryMacroMembers) ∧ ¬ ("Value" ∈ resultVoidMembers) := by
  decide

/-- C4: evaluation of the lookup-then-parse pipeline at the three claimed
keys.  Key `"number"` parses to `100`; key `"bad"` passes the lookup and
fails at the parse step with `EINVAL` ("Invalid argument", the
invalid-format errno), the error's recorded function being `ParseInt`; key
`"missing"` fails at the lookup step itself, the parse step never being
reached — but with code `EEXIST` (17, "File exists"), not an errno
identifying "not found" (`ENOENT`, 2). -/
theorem pipeline_eval :
    ((GetIntFromFile "number").map (fun r => (r.OK, r.Value)) = some (true, some 100))
    ∧ ((GetIntFromFile "bad").map
          (fun r => (r.OK, GenericError.Code r.Error, BaseError.Function r.Error.base))
        = some (false, EINVAL, some "ParseInt"))
    ∧ ((GetIntFromFile "missing").map
          (fun r => (r.OK, GenericError.Code r.Error, BaseError.Function r.Error.base))
        = some (false, EEXIST, some "OpenFile"))
    ∧ EEXIST = 17 ∧ ENOENT = 2 ∧ EEXIST ≠ ENOENT := by
  refine ⟨by decide, by decide, by decide, rfl, rfl, by decide⟩

/-- C9: `Message()` is a stub — at a concrete error with code `EINVAL` (22)
it returns the empty string, not a registry-resolved message and not the
raw numeric code `"22"` the claim's fallback requires. -/
theorem Message_stub_eval :
    GenericError.Message (GenericError.mk1 22 "result.cpp" 282 "ParseInt") = ""
    ∧ GenericError.Message (GenericError.mk1 22 "result.cpp" 282 "ParseInt") ≠ "22" :=
  ⟨rfl, by decide⟩

end EH
